import Mathlib

/-
Verification of the kube-watchtower reconciliation engine.

Go strings are modelled as `List Char`; Go's `strings.Split` with a
single-character separator is modelled by `splitOnChar`; machine integers
(int32 replica counts, generation numbers) are modelled as `Int` (only
compared, never overflowed); fallible Go functions returning `error` are
modelled with `Option` / `Except`.
-/

set_option linter.dupNamespace false

namespace KW

/-- Model of Go `strings.Split(s, sep)` for a one-character separator.
`strings.Split("", sep) = [""]`, and the result is never empty. -/
def splitOnChar (sep : Char) : List Char → List (List Char)
  | [] => [[]]
  | c :: rest =>
    match splitOnChar sep rest with
    | [] => [[]]
    | cur :: parts => if c = sep then [] :: cur :: parts else (c :: cur) :: parts

/-- Model of Go `strings.SplitN(s, sep, 2)` for a one-character separator:
at most two pieces, the second piece keeps any further separators. -/
def splitN2 (sep : Char) : List Char → List (List Char)
  | [] => [[]]
  | c :: rest =>
    if c = sep then [[], rest]
    else
      match splitN2 sep rest with
      | [] => [[c]]
      | cur :: parts => (c :: cur) :: parts

/-- The default tag string "latest". -/
def latestTag : List Char := "latest".toList

end KW

namespace Registry

/-- Result of registry.ParseImage (pkg/registry ImageInfo struct). -/
structure ImageInfo where
  Repository : List Char
  Tag : List Char
  Digest : List Char
deriving DecidableEq, Repr

/-- Model of registry.ParseImage: split off an optional digest at the first
at-sign (Digest is the part between the first and second at-sign, if any),
then split the remainder at the first colon into repository and tag, with
tag defaulting to "latest". -/
def ParseImage (image : List Char) : ImageInfo :=
  let parts := KW.splitOnChar '@' image
  let digest := if 1 < parts.length then parts.getD 1 [] else []
  let image1 := if 1 < parts.length then parts.getD 0 [] else image
  let parts2 := KW.splitOnChar ':' image1
  { Repository := parts2.getD 0 []
    Tag := if 1 < parts2.length then parts2.getD 1 [] else KW.latestTag
    Digest := digest }

/-- Registry credentials handed to the digest resolver (pkg/registry). -/
structure RegistryCredentials where
  Registry : List Char
  Username : List Char
  Password : List Char
deriving DecidableEq, Repr

end Registry

namespace K8s

/-- One entry of the auths map of a docker-config pull secret
(pkg/k8s DockerAuthConfig). -/
structure DockerAuthConfig where
  Username : List Char
  Password : List Char
  Auth : List Char
deriving DecidableEq, Repr

/-- Registry authentication extracted from a pull secret
(pkg/k8s RegistryAuth). -/
structure RegistryAuth where
  Registry : List Char
  Username : List Char
  Password : List Char
deriving DecidableEq, Repr

/-- Value of one standard-base64 alphabet character, none for other
characters (model of the Go base64.StdEncoding alphabet). -/
def base64Val (c : Char) : Option Nat :=
  if 'A' ≤ c ∧ c ≤ 'Z' then some (c.toNat - 65)
  else if 'a' ≤ c ∧ c ≤ 'z' then some (c.toNat - 97 + 26)
  else if '0' ≤ c ∧ c ≤ '9' then some (c.toNat - 48 + 52)
  else if c = '+' then some 62
  else if c = '/' then some 63
  else none

/-- Byte-level model of Go base64.StdEncoding.DecodeString: four-character
groups, each yielding three bytes, with = padding allowed only at the very
end; any other shape is a decode error (none). Trailing bits of a padded
group are discarded, as Go does. -/
def base64Bytes : List Char → Option (List Nat)
  | [] => some []
  | a :: b :: c :: d :: rest =>
    match base64Val a, base64Val b with
    | some va, some vb =>
      if c = '=' then
        if d = '=' ∧ rest = [] then some [va * 4 + vb / 16]
        else none
      else
        match base64Val c with
        | some vc =>
          if d = '=' then
            if rest = [] then some [va * 4 + vb / 16, (vb % 16) * 16 + vc / 4]
            else none
          else
            match base64Val d with
            | some vd =>
              match base64Bytes rest with
              | some tl => some ((va * 4 + vb / 16) :: ((vb % 16) * 16 + vc / 4) :: ((vc % 4) * 64 + vd) :: tl)
              | none => none
            | none => none
        | none => none
    | _, _ => none
  | _ => none

/-- Model of Go base64.StdEncoding.DecodeString followed by string(...)
(all decoded inputs used here are ASCII). -/
def base64Decode (s : List Char) : Option (List Char) :=
  match base64Bytes s with
  | some bytes => some (bytes.map Char.ofNat)
  | none => none

/-- Loop body of GetImagePullSecret for one registry entry of the auths
map: start from the discrete username/password fields; when the combined
Auth field is non-empty and at least one discrete field is empty, decode
Auth and, when it decodes and contains a colon, replace both fields with
the decoded user:pass pair. A decode error skips the entry (Go continue).
Returns the RegistryAuth appended for this entry, if any. -/
def processAuthEntry (registry : List Char) (cfg : DockerAuthConfig) : Option RegistryAuth :=
  let username := cfg.Username
  let password := cfg.Password
  if cfg.Auth ≠ [] ∧ (username = [] ∨ password = []) then
    match base64Decode cfg.Auth with
    | none => none
    | some decoded =>
      let parts := KW.splitN2 ':' decoded
      if parts.length = 2 then
        some { Registry := registry, Username := parts.getD 0 [], Password := parts.getD 1 [] }
      else
        some { Registry := registry, Username := username, Password := password }
  else
    some { Registry := registry, Username := username, Password := password }

/-- Model of the extraction loop of GetImagePullSecret over the auths map
(the map is modelled as an association list). -/
def GetImagePullSecret (auths : List (List Char × DockerAuthConfig)) : List RegistryAuth :=
  auths.filterMap (fun rc => processAuthEntry rc.1 rc.2)

end K8s

namespace Watcher

/-- Model of watcher normalizeRegistry: strip an https:// or http://
scheme, strip one trailing slash, then lowercase (Go strings.TrimPrefix,
strings.TrimSuffix, strings.ToLower; hostnames here are ASCII). -/
def normalizeRegistry (registry : List Char) : List Char :=
  let pre1 := "https://".toList
  let r1 := if registry.take pre1.length = pre1 then registry.drop pre1.length else registry
  let pre2 := "http://".toList
  let r2 := if r1.take pre2.length = pre2 then r1.drop pre2.length else r1
  let suf := "/".toList
  let r3 :=
    if suf.length ≤ r2.length ∧ r2.drop (r2.length - suf.length) = suf then
      r2.take (r2.length - suf.length)
    else r2
  r3.map Char.toLower

/-- The fixed Docker-Hub alias set of watcher matchesRegistry. -/
def dockerHubRegistries : List (List Char) :=
  ["index.docker.io".toList, "docker.io".toList,
   "registry-1.docker.io".toList, "registry.hub.docker.com".toList]

/-- Model of the watcher helper contains (linear search in a string slice). -/
def contains (slice : List (List Char)) (item : List Char) : Bool :=
  match slice with
  | [] => false
  | s :: rest => if s = item then true else contains rest item

/-- Model of watcher matchesRegistry: normalize both hosts, accept on
direct equality, otherwise accept iff both normalized hosts are in the
Docker-Hub alias set. -/
def matchesRegistry (imageRegistry secretRegistry : List Char) : Bool :=
  let i := normalizeRegistry imageRegistry
  let s := normalizeRegistry secretRegistry
  if i = s then true
  else contains dockerHubRegistries i && contains dockerHubRegistries s

/-- Inner loop of getCredentialsForImage: first auth entry of one secret
whose registry matches the image registry. -/
def findAuth (imageRegistry : List Char) : List K8s.RegistryAuth → Option Registry.RegistryCredentials
  | [] => none
  | a :: rest =>
    if matchesRegistry imageRegistry a.Registry then
      some { Registry := a.Registry, Username := a.Username, Password := a.Password }
    else findAuth imageRegistry rest

/-- Model of watcher getCredentialsForImage: walk the declared secrets in
order; a secret that fails to load (none) is skipped; inside a loaded
secret the first matching auth entry wins; when nothing matches the
resolver returns none (anonymous lookup), not an error. -/
def getCredentialsForImage (imageRegistry : List Char) :
    List (Option (List K8s.RegistryAuth)) → Option Registry.RegistryCredentials
  | [] => none
  | none :: rest => getCredentialsForImage imageRegistry rest
  | some auths :: rest =>
    match findAuth imageRegistry auths with
    | some cred => some cred
    | none => getCredentialsForImage imageRegistry rest

/-- Decidable statement that one fetched secret contributes no matching
auth entry for the image registry (used to state first-match-wins). -/
def secretHasNoMatch (imageRegistry : List Char) (secret : Option (List K8s.RegistryAuth)) : Bool :=
  match secret with
  | none => true
  | some auths => auths.all (fun a => ! matchesRegistry imageRegistry a.Registry)

end Watcher

namespace Notifier

/-- One per-container outcome recorded during a cycle
(pkg/notifier UpdateResult). -/
structure UpdateResult where
  Image : String
  Success : Bool
  Error : Option String
deriving DecidableEq, Repr

/-- State of the notifier (pkg/notifier Notifier): enabled iff a
destination URL was configured, plus the cycle-scoped result list. -/
structure Notifier where
  enabled : Bool
  clusterName : String
  results : List UpdateResult
deriving DecidableEq, Repr

/-- Model of Notifier.AddResult: append an outcome, a no-op when
notifications are disabled. -/
def AddResult (n : Notifier) (image : String) (success : Bool) (err : Option String) : Notifier :=
  if n.enabled then
    { n with results := n.results ++ [{ Image := image, Success := success, Error := err }] }
  else n

/-- Model of Notifier.Reset: clear the cycle-scoped result list. -/
def Reset (n : Notifier) : Notifier :=
  { n with results := [] }

/-- Model of Notifier.buildSummaryMessage: title line, grouped
success/failure image lists, and the Updated: X/Y summary line. -/
def buildSummaryMessage (n : Notifier) (totalCount : Nat) : String :=
  let pair := n.results.partition (fun r => r.Success)
  let successList := pair.1.map (fun r => r.Image)
  let failList := pair.2.map (fun r => r.Image)
  let title := "☸️ kube-watchtower updates on " ++ n.clusterName ++ "\n\n"
  let sec1 :=
    if 0 < successList.length then
      "✅ Updated successfully:\n" ++ String.join (successList.map (fun i => "- " ++ i ++ "\n")) ++ "\n"
    else ""
  let sec2 :=
    if 0 < failList.length then
      "❌ Failed to update:\n" ++ String.join (failList.map (fun i => "- " ++ i ++ "\n")) ++ "\n"
    else ""
  title ++ sec1 ++ sec2 ++ "Updated: " ++ toString successList.length ++ "/" ++ toString totalCount

/-- Model of Notifier.SendSummary: the message handed to the transport,
none when the notifier is disabled or when no result was recorded this
cycle. -/
def SendSummary (n : Notifier) (totalCount : Nat) : Option String :=
  if n.enabled = false then none
  else if n.results.length = 0 then none
  else some (buildSummaryMessage n totalCount)

end Notifier

namespace Registry

/-- Outcome of one remote digest resolution, as the environment presents
it to getRemoteDigest: the image reference fails to parse, the registry
fetch fails, or a digest is resolved. -/
inductive DigestResolution where
  | parseError
  | fetchError (msg : String)
  | resolved (digest : String)
deriving DecidableEq, Repr

/-- Result of registry getRemoteDigest. fatal models the logger.Fatalf
call on a reference-parse failure, which exits the process. -/
inductive GetDigestOutcome where
  | fatal
  | err (msg : String)
  | ok (digest : String)
deriving DecidableEq, Repr

/-- Model of registry getRemoteDigest: a reference-parse failure hits
logger.Fatalf (process exit); a fetch failure is wrapped and returned as
an error; otherwise the resolved digest string is returned. -/
def getRemoteDigest (r : DigestResolution) : GetDigestOutcome :=
  match r with
  | .parseError => .fatal
  | .fetchError m => .err ("failed to inspect distribution: " ++ m)
  | .resolved d => .ok d

/-- Result of registry CheckForUpdate. -/
inductive CheckOutcome where
  | fatal
  | err (msg : String)
  | ok (hasUpdate : Bool) (digest : String)
deriving DecidableEq, Repr

/-- Model of registry CheckForUpdate: wrap a digest-fetch error; on
success always report hasUpdate = true together with the remote digest
(the comparison against the local digest is done by the watcher). -/
def CheckForUpdate (r : DigestResolution) : CheckOutcome :=
  match getRemoteDigest r with
  | .fatal => .fatal
  | .err m => .err ("failed to get remote digest: " ++ m)
  | .ok d => .ok true d

end Registry

namespace Watcher

/-- Update decision of the watcher check loop (lines 114 to 126 of the
watcher): with a known local digest, update iff it differs from the
remote digest by exact string comparison; with an unknown local digest,
fall back to the hasUpdate flag returned by CheckForUpdate. -/
def updateNeeded (hasUpdate : Bool) (currentDigest newDigest : String) : Bool :=
  if currentDigest ≠ "" then
    if currentDigest = newDigest then false else true
  else hasUpdate

/-- Result of one step (patch, rollout wait, cleanup) of updateContainer. -/
inductive StepResult where
  | ok
  | err (msg : String)
deriving DecidableEq, Repr

/-- Model of watcher updateContainer given the outcome of its three
cluster interactions: a patch or rollout failure is wrapped and returned;
after a successful rollout a cleanup failure (when cleanup is enabled) is
only recorded as a warning line and the function still returns ok. The
second component is the list of warning log lines. -/
def updateContainer (patch rollout : StepResult) (cleanupEnabled : Bool) (cleanup : StepResult) :
    StepResult × List String :=
  match patch with
  | .err m => (.err ("failed to update workload: " ++ m), [])
  | .ok =>
    match rollout with
    | .err m => (.err ("rollout failed: " ++ m), [])
    | .ok =>
      if cleanupEnabled then
        match cleanup with
        | .err m => (.ok, ["Cleanup warning: " ++ m])
        | .ok => (.ok, [])
      else (.ok, [])

/-- Environment of one container inside a check cycle: its image, whether
the config disables it, the running digest (empty when unknown), how its
remote digest resolution goes, and how the patch/rollout/cleanup steps of
an attempted update would go. -/
structure ContainerCheck where
  image : String
  disabled : Bool
  currentDigest : String
  resolution : Registry.DigestResolution
  patch : StepResult
  rollout : StepResult
  cleanup : StepResult
deriving DecidableEq, Repr

/-- Counters and notifier state accumulated by one check cycle. -/
structure CycleState where
  updatedCount : Nat
  failedCount : Nat
  scannedCount : Nat
  notifier : Notifier.Notifier
deriving DecidableEq, Repr

/-- Body of the watcher check loop for one container: skip disabled
containers; count scanned; a digest-fetch error records a failure outcome
and moves on; a reference-parse failure terminates the process (none);
otherwise decide updateNeeded and, when an update is attempted, record a
success or failure outcome according to updateContainer. -/
def processContainer (cleanupEnabled : Bool) (st : CycleState) (c : ContainerCheck) :
    Option CycleState :=
  if c.disabled then some st
  else
    let st1 := { st with scannedCount := st.scannedCount + 1 }
    match Registry.CheckForUpdate c.resolution with
    | .fatal => none
    | .err m =>
      some { st1 with failedCount := st1.failedCount + 1,
                      notifier := Notifier.AddResult st1.notifier c.image false (some m) }
    | .ok hasUpdate newDigest =>
      if updateNeeded hasUpdate c.currentDigest newDigest then
        match (updateContainer c.patch c.rollout cleanupEnabled c.cleanup).1 with
        | .err m =>
          some { st1 with failedCount := st1.failedCount + 1,
                          notifier := Notifier.AddResult st1.notifier c.image false (some m) }
        | .ok =>
          some { st1 with updatedCount := st1.updatedCount + 1,
                          notifier := Notifier.AddResult st1.notifier c.image true none }
      else some st1

/-- The watcher check loop over the containers of a cycle; none means the
process was terminated mid-cycle by logger.Fatalf. -/
def runCheck (cleanupEnabled : Bool) (st : CycleState) : List ContainerCheck → Option CycleState
  | [] => some st
  | c :: rest =>
    match processContainer cleanupEnabled st c with
    | none => none
    | some st1 => runCheck cleanupEnabled st1 rest

end Watcher

namespace K8s

/-- Spec and status fields of a Deployment consulted by
isDeploymentRolloutComplete. Replica counts and generations are int32 /
int64 in the source; they are only compared here, so Int is a faithful
model. -/
structure Deployment where
  generation : Int
  observedGeneration : Int
  specReplicas : Option Int
  updatedReplicas : Int
  replicas : Int
  availableReplicas : Int
deriving DecidableEq, Repr

/-- Model of isDeploymentRolloutComplete: the observed generation has
caught up and updated/current/available replica counts all equal the
desired count, which defaults to 1 when Spec.Replicas is nil. -/
def isDeploymentRolloutComplete (d : Deployment) : Bool :=
  if d.generation ≤ d.observedGeneration then
    let replicas : Int :=
      match d.specReplicas with
      | some r => r
      | none => 1
    if d.updatedReplicas = replicas ∧ d.replicas = replicas ∧ d.availableReplicas = replicas then
      true
    else false
  else false

/-- Spec and status fields of a StatefulSet consulted by
isStatefulSetRolloutComplete. -/
structure StatefulSet where
  generation : Int
  observedGeneration : Int
  specReplicas : Option Int
  updatedReplicas : Int
  replicas : Int
  readyReplicas : Int
deriving DecidableEq, Repr

/-- Model of isStatefulSetRolloutComplete: like the deployment check but
with Status.ReadyReplicas in place of Status.AvailableReplicas. -/
def isStatefulSetRolloutComplete (s : StatefulSet) : Bool :=
  if s.generation ≤ s.observedGeneration then
    let replicas : Int :=
      match s.specReplicas with
      | some r => r
      | none => 1
    if s.updatedReplicas = replicas ∧ s.replicas = replicas ∧ s.readyReplicas = replicas then
      true
    else false
  else false

/-- A ControllerRevision as consulted by cleanupOldControllerRevisions:
its name, its revision number, and the names of its owner references. -/
structure ControllerRevision where
  name : String
  revision : Int
  ownerNames : List String
deriving DecidableEq, Repr

/-- Model of getOwnerName: the name of the first owner reference, or the
empty string. -/
def getOwnerName (ownerRefs : List String) : String :=
  match ownerRefs with
  | o :: _ => o
  | [] => ""

/-- Model of cleanupOldControllerRevisions, returning the revisions whose
deletion is requested: filter the listed revisions down to those owned by
the workload, keep the first two of the filtered list in listing order
(no sort is performed), and delete the rest. -/
def cleanupOldControllerRevisions (name : String) (revisions : List ControllerRevision) :
    List ControllerRevision :=
  let workloadRevisions := revisions.filter (fun rev => getOwnerName rev.ownerNames = name)
  if workloadRevisions.length ≤ 2 then []
  else workloadRevisions.drop 2

/-- A container of a pod template spec, as consulted by
updateContainerImage. -/
structure SpecContainer where
  name : String
  image : String
deriving DecidableEq, Repr

/-- A pod template spec. -/
structure PodSpec where
  containers : List SpecContainer
deriving DecidableEq, Repr

/-- Loop of updateContainerImage over the containers: set the image of
the first container with the given name; none when no container matches. -/
def setContainerImage (containerName newImage : String) :
    List SpecContainer → Option (List SpecContainer)
  | [] => none
  | c :: rest =>
    if c.name = containerName then some ({ c with image := newImage } :: rest)
    else
      match setContainerImage containerName newImage rest with
      | some rest1 => some (c :: rest1)
      | none => none

/-- Model of updateContainerImage: update the named container's image in
the pod spec, or return the container-not-found error. -/
def updateContainerImage (podSpec : PodSpec) (containerName newImage : String) :
    Except String PodSpec :=
  match setContainerImage containerName newImage podSpec.containers with
  | some cs => .ok { containers := cs }
  | none => .error ("container " ++ containerName ++ " not found")

/-- A workload object as touched by UpdateWorkloadImage: its pod template
spec and its pod-template annotations. -/
structure Workload where
  template : PodSpec
  annotations : List (String × String)
deriving DecidableEq, Repr

/-- Map assignment on the annotations (Go map write: replace the value of
an existing key, otherwise add the pair). -/
def setAnn (anns : List (String × String)) (key value : String) : List (String × String) :=
  if anns.any (fun kv => kv.1 = key) then
    anns.map (fun kv => if kv.1 = key then (key, value) else kv)
  else anns ++ [(key, value)]

/-- Per-kind body of UpdateWorkloadImage given the result of the Get
call: patch the named container's image in the fetched object, stamp the
updated-at annotation, and issue the Update call. The second component is
the list of Update calls issued to the cluster; an error before the
Update call leaves it empty. -/
def updateOneKind (kindLabel : String) (getResult : Except String Workload)
    (containerName newImage timestamp : String) : Except String Workload × List Workload :=
  match getResult with
  | .error e => (.error ("failed to get " ++ kindLabel ++ ": " ++ e), [])
  | .ok w =>
    match updateContainerImage w.template containerName newImage with
    | .error e => (.error e, [])
    | .ok spec1 =>
      let w1 : Workload :=
        { template := spec1,
          annotations := setAnn w.annotations "kube-watchtower.io/updated-at" timestamp }
      (.ok w1, [w1])

/-- Model of UpdateWorkloadImage: dispatch on the workload type string;
the three supported kinds run the same get/patch/annotate/update body;
an unsupported type is an error with no cluster call. -/
def UpdateWorkloadImage (workloadType : String) (getResult : Except String Workload)
    (containerName newImage timestamp : String) : Except String Workload × List Workload :=
  if workloadType = "Deployment" then
    updateOneKind "deployment" getResult containerName newImage timestamp
  else if workloadType = "DaemonSet" then
    updateOneKind "daemonset" getResult containerName newImage timestamp
  else if workloadType = "StatefulSet" then
    updateOneKind "statefulset" getResult containerName newImage timestamp
  else (.error ("unsupported workload type: " ++ workloadType), [])

end K8s

namespace KW

/-- splitOnChar always returns at least one piece. -/
theorem splitOnChar_shape (sep : Char) :
    ∀ s : List Char, ∃ cur parts, splitOnChar sep s = cur :: parts
  | [] => ⟨[], [], rfl⟩
  | c :: rest => by
    obtain ⟨cur, parts, h⟩ := splitOnChar_shape sep rest
    by_cases hc : c = sep
    · exact ⟨[], cur :: parts, by simp [splitOnChar, h, hc]⟩
    · exact ⟨c :: cur, parts, by simp [splitOnChar, h, hc]⟩

/-- A string without the separator splits into a single piece. -/
theorem splitOnChar_not_mem (sep : Char) :
    ∀ s : List Char, ¬ sep ∈ s → splitOnChar sep s = [s]
  | [], _ => rfl
  | c :: rest, h => by
    have hc : ¬ c = sep := fun hcs => h (by simp [hcs])
    have hrest : ¬ sep ∈ rest := fun hs => h (by simp [hs])
    simp [splitOnChar, splitOnChar_not_mem sep rest hrest, hc]

/-- Splitting at the first occurrence of the separator. -/
theorem splitOnChar_append (sep : Char) :
    ∀ s t : List Char, ¬ sep ∈ s →
      splitOnChar sep (s ++ sep :: t) = s :: splitOnChar sep t
  | [], t, _ => by
    obtain ⟨cur, parts, h⟩ := splitOnChar_shape sep t
    simp [splitOnChar, h]
  | c :: s, t, h => by
    have hc : ¬ c = sep := fun hcs => h (by simp [hcs])
    have hs : ¬ sep ∈ s := fun hm => h (by simp [hm])
    simp [splitOnChar, splitOnChar_append sep s t hs, hc]

/-- splitN2 at the first occurrence of the separator. -/
theorem splitN2_append (sep : Char) :
    ∀ u p : List Char, ¬ sep ∈ u → splitN2 sep (u ++ sep :: p) = [u, p]
  | [], p, _ => by simp [splitN2]
  | c :: u, p, h => by
    have hc : ¬ c = sep := fun hcs => h (by simp [hcs])
    have hu : ¬ sep ∈ u := fun hm => h (by simp [hm])
    simp [splitN2, splitN2_append sep u p hu, hc]

end KW

namespace Watcher

/-- findAuth yields none on a list with no matching entry. -/
theorem findAuth_none (img : List Char) :
    ∀ auths : List K8s.RegistryAuth,
      auths.all (fun a => ! matchesRegistry img a.Registry) = true →
      findAuth img auths = none
  | [], _ => rfl
  | a :: rest, h => by
    simp only [List.all_cons, Bool.and_eq_true, Bool.not_eq_true'] at h
    simp [findAuth, h.1, findAuth_none img rest h.2]

/-- findAuth returns the first matching entry of a secret. -/
theorem findAuth_first (img : List Char) (a : K8s.RegistryAuth) (post : List K8s.RegistryAuth) :
    ∀ pre : List K8s.RegistryAuth,
      pre.all (fun b => ! matchesRegistry img b.Registry) = true →
      matchesRegistry img a.Registry = true →
      findAuth img (pre ++ a :: post) =
        some { Registry := a.Registry, Username := a.Username, Password := a.Password }
  | [], _, ha => by simp [findAuth, ha]
  | b :: pre, h, ha => by
    simp only [List.all_cons, Bool.and_eq_true, Bool.not_eq_true'] at h
    simp [findAuth, h.1, findAuth_first img a post pre h.2 ha]

/-- getCredentialsForImage skips any run of secrets with no matching
entry and then resolves inside the first secret with a match. -/
theorem getCredentialsForImage_append (img : List Char) (auths : List K8s.RegistryAuth)
    (post : List (Option (List K8s.RegistryAuth))) :
    ∀ pre : List (Option (List K8s.RegistryAuth)),
      pre.all (secretHasNoMatch img) = true →
      getCredentialsForImage img (pre ++ some auths :: post) =
        (match findAuth img auths with
         | some c => some c
         | none => getCredentialsForImage img post)
  | [], _ => by
    cases hfa : findAuth img auths with
    | none => simp [getCredentialsForImage, hfa]
    | some c => simp [getCredentialsForImage, hfa]
  | none :: pre, h => by
    simp only [List.all_cons, Bool.and_eq_true] at h
    simpa [getCredentialsForImage] using
      getCredentialsForImage_append img auths post pre h.2
  | some x :: pre, h => by
    simp only [List.all_cons, Bool.and_eq_true, secretHasNoMatch] at h
    simp [getCredentialsForImage, findAuth_none img x h.1]
    exact getCredentialsForImage_append img auths post pre h.2

/-- getCredentialsForImage returns none when no secret has a matching
entry. -/
theorem getCredentialsForImage_none (img : List Char) :
    ∀ secrets : List (Option (List K8s.RegistryAuth)),
      secrets.all (secretHasNoMatch img) = true →
      getCredentialsForImage img secrets = none
  | [], _ => rfl
  | none :: rest, h => by
    simp only [List.all_cons, Bool.and_eq_true] at h
    simpa [getCredentialsForImage] using getCredentialsForImage_none img rest h.2
  | some x :: rest, h => by
    simp only [List.all_cons, Bool.and_eq_true, secretHasNoMatch] at h
    simp [getCredentialsForImage, findAuth_none img x h.1]
    exact getCredentialsForImage_none img rest h.2

end Watcher

/-- C1: CheckForUpdate reports hasUpdate = true together with any
successfully resolved remote digest, and the watcher decision then
attempts an update iff a non-empty local digest differs from the remote
digest under exact string comparison, while an empty local digest always
leads to an update attempt. -/
theorem updateDecision_iff (cur d : String) :
    Registry.CheckForUpdate (.resolved d) = .ok true d
    ∧ (cur ≠ "" → (Watcher.updateNeeded true cur d = true ↔ cur ≠ d))
    ∧ (cur = "" → Watcher.updateNeeded true cur d = true) := by
  refine ⟨rfl, ?_, ?_⟩
  · intro hne
    by_cases heq : cur = d
    · subst heq
      simp [Watcher.updateNeeded, hne]
    · simp [Watcher.updateNeeded, hne, heq]
  · intro hempty
    simp [Watcher.updateNeeded, hempty]

/-- Witness for C1 at concrete digests. -/
theorem updateDecision_witness :
    Watcher.updateNeeded true "sha256:aaa" "sha256:bbb" = true
    ∧ Watcher.updateNeeded true "" "sha256:zzz" = true :=
  ⟨((updateDecision_iff "sha256:aaa" "sha256:bbb").2.1 (by decide)).mpr (by decide),
   (updateDecision_iff "" "sha256:zzz").2.2 rfl⟩

/-- C2: ParseImage is total on non-empty image strings (it is a total
function); a string without a colon segment parses with tag "latest"; an
at-digest suffix is removed from the repository/tag part and stored in
the separate digest field; and the tag still defaults to "latest" when
the pre-digest part has no colon. -/
theorem parseImage_total_and_defaulting (s : List Char) (hne : s ≠ []) :
    ((¬ '@' ∈ s ∧ ¬ ':' ∈ s) → Registry.ParseImage s = ⟨s, KW.latestTag, []⟩)
    ∧ (∀ pre dig, s = pre ++ '@' :: dig → ¬ '@' ∈ pre → ¬ '@' ∈ dig →
        Registry.ParseImage s =
          ⟨(Registry.ParseImage pre).Repository, (Registry.ParseImage pre).Tag, dig⟩)
    ∧ (∀ pre dig, s = pre ++ '@' :: dig → ¬ '@' ∈ pre → ¬ '@' ∈ dig → ¬ ':' ∈ pre →
        (Registry.ParseImage s).Tag = KW.latestTag) := by
  refine ⟨?_, ?_, ?_⟩
  · rintro ⟨hat, hcolon⟩
    simp [Registry.ParseImage, KW.splitOnChar_not_mem '@' s hat,
      KW.splitOnChar_not_mem ':' s hcolon]
  · rintro pre dig rfl hpre hdig
    have e1 : KW.splitOnChar '@' (pre ++ '@' :: dig) = [pre, dig] := by
      rw [KW.splitOnChar_append '@' pre dig hpre, KW.splitOnChar_not_mem '@' dig hdig]
    simp [Registry.ParseImage, e1, KW.splitOnChar_not_mem '@' pre hpre]
  · rintro pre dig rfl hpre hdig hcolon
    have e1 : KW.splitOnChar '@' (pre ++ '@' :: dig) = [pre, dig] := by
      rw [KW.splitOnChar_append '@' pre dig hpre, KW.splitOnChar_not_mem '@' dig hdig]
    simp [Registry.ParseImage, e1, KW.splitOnChar_not_mem ':' pre hcolon]

/-- Witness for C2 at a concrete digest reference. -/
theorem parseImage_witness :
    Registry.ParseImage ("nginx".toList ++ '@' :: "sha256:abc".toList) =
      ⟨(Registry.ParseImage "nginx".toList).Repository,
       (Registry.ParseImage "nginx".toList).Tag, "sha256:abc".toList⟩ :=
  (parseImage_total_and_defaulting ("nginx".toList ++ '@' :: "sha256:abc".toList)
      (by decide)).2.1 "nginx".toList "sha256:abc".toList rfl (by decide) (by decide)

/-- C3: matchesRegistry accepts any two hosts equal after normalization
(scheme strip, trailing-slash strip, lowercase) and any two hosts from
the Docker-Hub alias set; inside a secret the first matching auth entry
wins; across secrets the first secret with a match wins (earlier
matchless or unreadable secrets are skipped); and with no match anywhere
the resolver returns none, not an error. -/
theorem credentialResolution_spec :
    (∀ i s, Watcher.normalizeRegistry i = Watcher.normalizeRegistry s →
       Watcher.matchesRegistry i s = true)
    ∧ (∀ i s, i ∈ Watcher.dockerHubRegistries → s ∈ Watcher.dockerHubRegistries →
       Watcher.matchesRegistry i s = true)
    ∧ (∀ img pre a post,
        pre.all (fun b => ! Watcher.matchesRegistry img b.Registry) = true →
        Watcher.matchesRegistry img a.Registry = true →
        Watcher.findAuth img (pre ++ a :: post) =
          some { Registry := a.Registry, Username := a.Username, Password := a.Password })
    ∧ (∀ img pre auths post,
        pre.all (Watcher.secretHasNoMatch img) = true →
        Watcher.getCredentialsForImage img (pre ++ some auths :: post) =
          (match Watcher.findAuth img auths with
           | some c => some c
           | none => Watcher.getCredentialsForImage img post))
    ∧ (∀ img secrets, secrets.all (Watcher.secretHasNoMatch img) = true →
        Watcher.getCredentialsForImage img secrets = none) := by
  refine ⟨?_, ?_, ?_, ?_, ?_⟩
  · intro i s h
    simp [Watcher.matchesRegistry, h]
  · intro i s hi hs
    simp only [Watcher.dockerHubRegistries, List.mem_cons, List.mem_singleton,
      List.not_mem_nil, or_false] at hi hs
    rcases hi with rfl | rfl | rfl | rfl <;> rcases hs with rfl | rfl | rfl | rfl <;> decide
  · intro img pre a post hpre ha
    exact Watcher.findAuth_first img a post pre hpre ha
  · intro img pre auths post hpre
    exact Watcher.getCredentialsForImage_append img auths post pre hpre
  · intro img secrets h
    exact Watcher.getCredentialsForImage_none img secrets h

/-- Witness for C3: two distinct Docker-Hub aliases match, and a secret
list with no matching registry resolves to none. -/
theorem credentialResolution_witness :
    Watcher.matchesRegistry "docker.io".toList "registry.hub.docker.com".toList = true
    ∧ Watcher.getCredentialsForImage "quay.io".toList
        [none, some [⟨"ghcr.io".toList, "u".toList, "p".toList⟩]] = none :=
  ⟨credentialResolution_spec.2.1 "docker.io".toList "registry.hub.docker.com".toList
      (by decide) (by decide),
   credentialResolution_spec.2.2.2.2 "quay.io".toList
      [none, some [⟨"ghcr.io".toList, "u".toList, "p".toList⟩]] (by decide)⟩

/-- C4 counterexample: with a non-empty username "u" but an empty
password, the combined Auth field (base64 of "a:b") is still decoded and
both fields are overwritten with the decoded pair, so the decoded auth is
used although the discrete fields are not both empty. -/
theorem authPriority_counterexample :
    ("u".toList : List Char) ≠ []
    ∧ K8s.processAuthEntry "example.com".toList
        ⟨"u".toList, [], "YTpi".toList⟩
        = some ⟨"example.com".toList, "a".toList, "b".toList⟩
    ∧ ("a".toList : List Char) ≠ "u".toList := by
  refine ⟨by decide, by decide, by decide⟩

/-- C4 amended: the combined Auth field is decoded and used whenever it
is non-empty and at least one discrete field is empty (overwriting both
fields with the decoded user:pass pair); when both discrete fields are
non-empty, or Auth is empty, the discrete fields are used as-is and Auth
is ignored. -/
theorem authPriority_amended (registry : List Char) (cfg : K8s.DockerAuthConfig) :
    (cfg.Username ≠ [] → cfg.Password ≠ [] →
      K8s.processAuthEntry registry cfg = some ⟨registry, cfg.Username, cfg.Password⟩)
    ∧ (cfg.Auth = [] →
      K8s.processAuthEntry registry cfg = some ⟨registry, cfg.Username, cfg.Password⟩)
    ∧ (∀ u p, cfg.Auth ≠ [] → (cfg.Username = [] ∨ cfg.Password = []) →
        K8s.base64Decode cfg.Auth = some (u ++ ':' :: p) → ¬ ':' ∈ u →
        K8s.processAuthEntry registry cfg = some ⟨registry, u, p⟩) := by
  refine ⟨?_, ?_, ?_⟩
  · intro hu hp
    simp [K8s.processAuthEntry, hu, hp]
  · intro ha
    simp [K8s.processAuthEntry, ha]
  · intro u p ha hEmpty hDec hu
    simp [K8s.processAuthEntry, ha, hEmpty, hDec, KW.splitN2_append ':' u p hu]

/-- Witness for C4 amended: with both discrete fields empty, the decoded
Auth pair user:pass is used. -/
theorem authPriority_witness :
    K8s.processAuthEntry "example.com".toList ⟨[], [], "dXNlcjpwYXNz".toList⟩
      = some ⟨"example.com".toList, "user".toList, "pass".toList⟩ :=
  (authPriority_amended "example.com".toList ⟨[], [], "dXNlcjpwYXNz".toList⟩).2.2
    "user".toList "pass".toList (by decide) (Or.inl rfl) (by decide) (by decide)

/-- C5: cleanupOldControllerRevisions performs no sort (despite its
comment), so with the workload's revisions listed in ascending revision
order it deletes the most recent revision (number 3) and keeps the two
oldest, instead of keeping the two most recent. -/
theorem cleanupRevisions_deletes_most_recent :
    K8s.cleanupOldControllerRevisions "w"
        [⟨"w-rev-1", 1, ["w"]⟩, ⟨"w-rev-2", 2, ["w"]⟩, ⟨"w-rev-3", 3, ["w"]⟩]
      = [⟨"w-rev-3", 3, ["w"]⟩]
    ∧ ¬ (⟨"w-rev-1", 1, ["w"]⟩ : K8s.ControllerRevision) ∈
        K8s.cleanupOldControllerRevisions "w"
          [⟨"w-rev-1", 1, ["w"]⟩, ⟨"w-rev-2", 2, ["w"]⟩, ⟨"w-rev-3", 3, ["w"]⟩] := by
  refine ⟨by decide, by decide⟩

/-- C6: the deployment rollout-complete predicate is true iff the
observed generation has caught up to the spec generation and the updated,
current and available replica counts all equal the desired replica count,
defaulting to 1 when Spec.Replicas is unset. -/
theorem deploymentRollout_iff (d : K8s.Deployment) :
    K8s.isDeploymentRolloutComplete d = true ↔
      (d.generation ≤ d.observedGeneration
       ∧ d.updatedReplicas = d.specReplicas.getD 1
       ∧ d.replicas = d.specReplicas.getD 1
       ∧ d.availableReplicas = d.specReplicas.getD 1) := by
  cases h : d.specReplicas with
  | none =>
    simp only [K8s.isDeploymentRolloutComplete, h, Option.getD_none]
    split_ifs with h1 h2 <;> simp_all
  | some r =>
    simp only [K8s.isDeploymentRolloutComplete, h, Option.getD_some]
    split_ifs with h1 h2 <;> simp_all

/-- Witness for C6 at a concrete converged deployment. -/
theorem deploymentRollout_witness :
    K8s.isDeploymentRolloutComplete ⟨1, 1, none, 1, 1, 1⟩ = true :=
  (deploymentRollout_iff ⟨1, 1, none, 1, 1, 1⟩).mpr (by decide)

/-- C7: a reference-parse failure inside getRemoteDigest hits
logger.Fatalf and terminates the process mid-cycle (runCheck returns
none and the following container is never processed), while the same
cycle without the unparsable image completes. -/
theorem check_terminated_by_parse_failure :
    Watcher.runCheck false ⟨0, 0, 0, ⟨true, "kubernetes", []⟩⟩
        [⟨"Nginx", false, "", .parseError, .ok, .ok, .ok⟩,
         ⟨"nginx", false, "", .resolved "sha256:bbb", .ok, .ok, .ok⟩] = none
    ∧ (Watcher.runCheck false ⟨0, 0, 0, ⟨true, "kubernetes", []⟩⟩
         [⟨"nginx", false, "", .resolved "sha256:bbb", .ok, .ok, .ok⟩]).isSome = true := by
  refine ⟨rfl, rfl⟩

/-- Helper: after a successful patch and rollout, updateContainer
returns ok whatever the cleanup flag and cleanup outcome are. -/
theorem updateContainer_ok_of_rollout_ok (cleanupEnabled : Bool) (cleanup : Watcher.StepResult) :
    (Watcher.updateContainer .ok .ok cleanupEnabled cleanup).1 = .ok := by
  cases cleanupEnabled <;> cases cleanup <;> rfl

/-- C8: when the image patch and the rollout wait succeed, updateContainer
returns ok regardless of the cleanup outcome, and the check loop then
counts the container as updated and records a success outcome. -/
theorem cleanupFailure_not_escalated :
    (∀ cleanupEnabled cleanup,
      (Watcher.updateContainer .ok .ok cleanupEnabled cleanup).1 = .ok)
    ∧ (∀ cleanupEnabled st (c : Watcher.ContainerCheck) d,
        c.disabled = false → c.resolution = .resolved d →
        Watcher.updateNeeded true c.currentDigest d = true →
        c.patch = .ok → c.rollout = .ok →
        Watcher.processContainer cleanupEnabled st c =
          some { st with
                 scannedCount := st.scannedCount + 1,
                 updatedCount := st.updatedCount + 1,
                 notifier := Notifier.AddResult st.notifier c.image true none }) := by
  refine ⟨updateContainer_ok_of_rollout_ok, ?_⟩
  intro cleanupEnabled st c d h1 h2 h3 h4 h5
  have hu : (Watcher.updateContainer c.patch c.rollout cleanupEnabled c.cleanup).1 = .ok := by
    rw [h4, h5]
    exact updateContainer_ok_of_rollout_ok cleanupEnabled c.cleanup
  simp [Watcher.processContainer, h1, h2, Registry.CheckForUpdate,
    Registry.getRemoteDigest, h3, hu]

/-- Witness for C8: cleanup enabled and failing, patch and rollout
succeeding; the container is still recorded as updated. -/
theorem cleanupFailure_witness :
    Watcher.processContainer true ⟨0, 0, 0, ⟨true, "k", []⟩⟩
        ⟨"img", false, "sha256:a", .resolved "sha256:b", .ok, .ok, .err "cleanup failed"⟩
      = some { (⟨0, 0, 0, ⟨true, "k", []⟩⟩ : Watcher.CycleState) with
               scannedCount := 0 + 1, updatedCount := 0 + 1,
               notifier := Notifier.AddResult ⟨true, "k", []⟩ "img" true none } :=
  cleanupFailure_not_escalated.2 true ⟨0, 0, 0, ⟨true, "k", []⟩⟩
    ⟨"img", false, "sha256:a", .resolved "sha256:b", .ok, .ok, .err "cleanup failed"⟩
    "sha256:b" rfl rfl (by decide) rfl rfl

/-- Helper: setContainerImage fails on a container list in which no
container bears the requested name. -/
theorem setContainerImage_not_found (cn ni : String) :
    ∀ cs : List K8s.SpecContainer, cs.all (fun c => c.name != cn) = true →
      K8s.setContainerImage cn ni cs = none
  | [], _ => rfl
  | c :: rest, h => by
    simp only [List.all_cons, Bool.and_eq_true, bne_iff_ne, ne_eq] at h
    simp [K8s.setContainerImage, h.1, setContainerImage_not_found cn ni rest h.2]

/-- C9: when the named container is absent from the fetched workload's
pod template, UpdateWorkloadImage returns an error and issues no Update
call to the cluster, for every workload type; for the supported kinds the
error is the container-not-found error. -/
theorem notFound_no_patch (workloadType : String) (w : K8s.Workload) (cn ni ts : String)
    (habsent : w.template.containers.all (fun c => c.name != cn) = true) :
    (∃ e, K8s.UpdateWorkloadImage workloadType (.ok w) cn ni ts = (.error e, []))
    ∧ (workloadType = "Deployment" ∨ workloadType = "DaemonSet" ∨ workloadType = "StatefulSet" →
        K8s.UpdateWorkloadImage workloadType (.ok w) cn ni ts
          = (.error ("container " ++ cn ++ " not found"), [])) := by
  have hupd : K8s.updateContainerImage w.template cn ni
      = .error ("container " ++ cn ++ " not found") := by
    simp [K8s.updateContainerImage,
      setContainerImage_not_found cn ni w.template.containers habsent]
  have hkind : ∀ kl, K8s.updateOneKind kl (.ok w) cn ni ts
      = (.error ("container " ++ cn ++ " not found"), []) := by
    intro kl
    simp [K8s.updateOneKind, hupd]
  constructor
  · by_cases h1 : workloadType = "Deployment"
    · exact ⟨"container " ++ cn ++ " not found", by simp [K8s.UpdateWorkloadImage, h1, hkind]⟩
    · by_cases h2 : workloadType = "DaemonSet"
      · exact ⟨"container " ++ cn ++ " not found",
          by simp [K8s.UpdateWorkloadImage, h1, h2, hkind]⟩
      · by_cases h3 : workloadType = "StatefulSet"
        · exact ⟨"container " ++ cn ++ " not found",
            by simp [K8s.UpdateWorkloadImage, h1, h2, h3, hkind]⟩
        · exact ⟨"unsupported workload type: " ++ workloadType,
            by simp [K8s.UpdateWorkloadImage, h1, h2, h3]⟩
  · rintro (h1 | h1 | h1) <;> simp [K8s.UpdateWorkloadImage, h1, hkind]

/-- Witness for C9 at a concrete workload lacking the container. -/
theorem notFound_witness :
    K8s.UpdateWorkloadImage "Deployment"
        (.ok ⟨⟨[⟨"app", "nginx:latest"⟩]⟩, []⟩) "missing" "nginx:latest@sha256:bbb" "t0"
      = (.error ("container " ++ "missing" ++ " not found"), []) :=
  (notFound_no_patch "Deployment" ⟨⟨[⟨"app", "nginx:latest"⟩]⟩, []⟩ "missing"
      "nginx:latest@sha256:bbb" "t0" (by decide)).2 (Or.inl rfl)

/-- C10: with an empty cycle result list SendSummary sends nothing, even
when the notifier is enabled and containers were scanned; and any sent
summary implies the result list was non-empty. -/
theorem summarySuppressed_when_no_results (n : Notifier.Notifier) (total : Nat) :
    (n.results = [] → Notifier.SendSummary n total = none)
    ∧ (∀ m, Notifier.SendSummary n total = some m → n.results ≠ []) := by
  constructor
  · intro h
    cases he : n.enabled <;> simp [Notifier.SendSummary, he, h]
  · intro m hm hempty
    cases he : n.enabled <;> simp [Notifier.SendSummary, he, hempty] at hm

/-- Witness for C10: an enabled notifier with no recorded result sends
nothing for a cycle that scanned seven containers. -/
theorem summarySuppressed_witness :
    Notifier.SendSummary ⟨true, "kubernetes", []⟩ 7 = none :=
  (summarySuppressed_when_no_results ⟨true, "kubernetes", []⟩ 7).1 rfl








